import Mathlib

/-!
Shallow embedding of the pgany PostgreSQL wire-protocol server core
(src/pg/proto.go).  Byte streams are modelled as lists of naturals
(each a byte value); every definition below mirrors one function or
declaration of the Go source, with the source location noted.
-/

namespace PG

/-- Protocol magic for a normal startup (proto.go line 13). -/
def StartupMessage : Nat := 196608

/-- Protocol magic for an SSL negotiation request (proto.go line 14). -/
def SSLRequest : Nat := 80877103

/-- Big-endian byte sequence of the low 32 bits of a natural number. -/
def u32be (n : Nat) : List Nat :=
  [n / 2 ^ 24 % 256, n / 2 ^ 16 % 256, n / 2 ^ 8 % 256, n % 256]

/-- Big-endian byte sequence of the low 16 bits of a natural number. -/
def u16be (n : Nat) : List Nat :=
  [n / 2 ^ 8 % 256, n % 256]

/-- The numeric value of a big-endian byte sequence. -/
def beNat (l : List Nat) : Nat := l.foldl (fun a b => a * 256 + b) 0

/-- Reinterpretation of an integer as a signed 32-bit value
(two's-complement wrap-around), as performed by Go conversions to int32
and by reading 4 bytes into an int32. -/
def int32wrap (v : Int) : Int := (v + 2 ^ 31) % 2 ^ 32 - 2 ^ 31

/-- The bytes written by binary.Write(w, binary.BigEndian, v) for a Go
int32 value: the 4 big-endian bytes of its two's-complement form. -/
def i32be (v : Int) : List Nat := u32be (v % 2 ^ 32).toNat

/-- The bytes written by binary.Write(w, binary.BigEndian, v) for a Go
int16 value: the 2 big-endian bytes of its two's-complement form. -/
def i16be (v : Int) : List Nat := u16be (v % 2 ^ 16).toNat

/-- The fixed-size part values the source passes to WriteMessage
(proto.go: every caller passes only byte, int16 and int32 parts). -/
inductive Field
  | byte (b : Nat)
  | int16 (v : Int)
  | int32 (v : Int)
  deriving DecidableEq

/-- Serialization of one part by binary.Write with binary.BigEndian
(proto.go line 31). -/
def encodeField : Field → List Nat
  | .byte b => [b % 256]
  | .int16 v => i16be v
  | .int32 v => i32be v

/-- WriteMessage (proto.go lines 25-42): serializes all parts after the
first into a contents buffer, then emits the first part (the tag byte),
an int32 big-endian length equal to len(contents)+4, and the contents. -/
def WriteMessage (tag : Nat) (fields : List Field) : List Nat :=
  let contents := (fields.map encodeField).flatten
  tag % 256 :: (i32be ((contents.length : Int) + 4) ++ contents)

/-- AuthenticationOk (proto.go lines 44-46). -/
def AuthenticationOk : List Nat := WriteMessage 82 [Field.int32 0]

/-- ReadyForQuery (proto.go lines 48-50): tag 'Z', payload byte 'I'. -/
def ReadyForQuery : List Nat := WriteMessage 90 [Field.byte 73]

/-- A scalar value held in a row map, of the Go dynamic types the
repository actually stores in map[string]any rows: a string (here, its
byte sequence), a plain Go int, or a fixed-size int32. -/
inductive GoValue
  | text (bs : List Nat)
  | int (n : Int)
  | int32 (n : Int)
  deriving DecidableEq

/-- One row: the map from column name (its byte sequence) to value,
presented in one iteration order.  Go map iteration order is not
specified, so the same map may be presented in any permutation. -/
abbrev Row := List (List Nat × GoValue)

/-- The contents of the per-value buffer vb built by DataRow
(proto.go lines 90-97): for a string, its bytes followed by one NUL
byte; otherwise binary.Write with the dynamic value, which emits the
big-endian bytes for a fixed-size type such as int32, but REJECTS the
platform-sized Go int with an error that line 96 discards, leaving the
buffer empty. -/
def valueBytes : GoValue → List Nat
  | .text bs => bs ++ [0]
  | .int _ => []
  | .int32 n => i32be n

/-- The parts DataRow appends for one value (proto.go lines 98-103):
an int32 length equal to vb.Len(), then the buffer bytes. -/
def valueFields (v : GoValue) : List Field :=
  Field.int32 ((valueBytes v).length : Int) :: (valueBytes v).map Field.byte

/-- DataRow (proto.go lines 84-106): tag 'D', int16 field count, then
per value its length-prefixed encoding, in the row's iteration order. -/
def DataRow (row : Row) : List Nat :=
  WriteMessage 68
    (Field.int16 (row.length : Int) :: (row.map fun p => valueFields p.2).flatten)

/-- The parts RowDescription appends for one column (proto.go lines
56-79): the name bytes, a NUL, then placeholder metadata: table oid
int32 0, attribute number int16 0, type oid int32 0, type length
int16 -1, type modifier int32 0, format code int16 0. -/
def colDescFields (name : List Nat) : List Field :=
  name.map Field.byte ++
    [Field.byte 0, Field.int32 0, Field.int16 0, Field.int32 0,
     Field.int16 (-1), Field.int32 0, Field.int16 0]

/-- RowDescription (proto.go lines 52-82): tag 'T', int16 count of the
fields of data[0], then one description per column of data[0], in that
row's iteration order.  (Go indexes data[0] directly; callers pass a
non-empty data slice.) -/
def RowDescription (data : List Row) : List Nat :=
  WriteMessage 84
    (Field.int16 ((data.headD []).length : Int) ::
      ((data.headD []).map fun p => colDescFields p.1).flatten)

/-- CommandComplete (proto.go lines 108-118): tag 'C', the completion
tag bytes, then a NUL byte. -/
def CommandComplete (tag : List Nat) : List Nat :=
  WriteMessage 67 (tag.map Field.byte ++ [Field.byte 0])

/-- The error values a connection can produce (proto.go): io.EOF or an
unexpected-EOF from a read that got fewer bytes than needed; the
"Buffer underflow, only read %d bytes (expected %d)" error; the
"Unknown protocol version: %d" error; the "Expected 'Q', but got ..."
error.  The Disconnect sentinel is modelled separately. -/
inductive PGErr
  | eof
  | underflow (got expected : Int)
  | unknownProto (v : Nat)
  | unexpectedTag (t : Nat)
  deriving DecidableEq

/-- ReadInt32 (proto.go lines 199-205): binary.Read of 4 big-endian
bytes into an int32 (two's-complement reinterpretation); fails when
fewer than 4 bytes remain before stream closure. -/
def readI32 (s : List Nat) : Option (Int × List Nat) :=
  match s with
  | b0 :: b1 :: b2 :: b3 :: rest =>
      some (int32wrap (((b0 * 256 + b1) * 256 + b2) * 256 + b3 : Nat), rest)
  | _ => none

/-- The binary.Read of a uint32 from the startup buffer
(proto.go lines 145-149); fails when the buffer holds fewer than
4 bytes. -/
def readU32 (s : List Nat) : Option (Nat × List Nat) :=
  match s with
  | b0 :: b1 :: b2 :: b3 :: rest =>
      some ((((b0 * 256 + b1) * 256 + b2) * 256 + b3 : Nat), rest)
  | _ => none

/-- One buf.ReadString(0) call of the parameter loop (proto.go line
160): consume bytes up to and including the first NUL byte; when no NUL
remains, the rest of the buffer is returned together with io.EOF
(modelled as none), which breaks the loop. -/
def dropParam : List Nat → Option (List Nat)
  | [] => none
  | b :: rest => if b = 0 then some rest else dropParam rest

/-- The parameter-consumption loop (proto.go lines 159-168): repeatedly
ReadString(0) until io.EOF breaks the loop.  A bytes.Buffer read can
fail only with io.EOF, so the non-EOF error return inside the loop is
unreachable and the loop always ends successfully (true). -/
def consumeParams (buf : List Nat) : Bool :=
  match h : dropParam buf with
  | none => true
  | some rest => consumeParams rest
termination_by buf.length
decreasing_by
  have key : ∀ (l r : List Nat), dropParam l = some r → r.length < l.length := by
    intro l
    induction l with
    | nil => intro r hr; simp [dropParam] at hr
    | cons b bs ih =>
      intro r hr
      simp only [dropParam] at hr
      split at hr
      · injection hr with h2
        subst h2
        exact Nat.lt_succ_self _
      · exact Nat.lt_trans (ih r hr) (Nat.lt_succ_self _)
  exact key buf rest h

/-- The result of one Startup invocation: the Go pair (bool, error),
where (true, nil) is ready, (false, nil) is not-yet-ready, and a
non-nil error is fatal. -/
inductive SResult
  | ready
  | notReady
  | error (e : PGErr)
  deriving DecidableEq

/-- The tail of Startup after the payload buffer has been filled
(proto.go lines 145-171): read the uint32 protocol version from the
buffer; on SSLRequest write the single byte 'N' and report not ready;
on StartupMessage consume the parameter strings and report ready; any
other value is the unknown-protocol-version error.  Results are
(result, remaining input stream, bytes written to the client). -/
def startupOnBuf (buf rest : List Nat) : SResult × List Nat × List Nat :=
  match readU32 buf with
  | none => (.error .eof, rest, [])
  | some (pv, params) =>
    if pv = SSLRequest then (.notReady, rest, [78])
    else if pv = StartupMessage then
      (if consumeParams params then .ready else .error .eof, rest, [])
    else (.error (.unknownProto pv), rest, [])

/-- Startup (proto.go lines 131-172): read an int32 message length,
then io.CopyN exactly length-4 further bytes into a buffer.  CopyN of a
negative count copies nothing with a nil error, so the explicit
underflow check fires; CopyN that reaches stream closure early returns
io.EOF, which is returned as-is by the err check on line 139.
Otherwise the buffered payload is interpreted by startupOnBuf. -/
def Startup (s : List Nat) : SResult × List Nat × List Nat :=
  match readI32 s with
  | none => (.error .eof, [], [])
  | some (msgLength, s1) =>
    let contentLength := int32wrap (msgLength - 4)
    if contentLength < 0 then (.error (.underflow 0 contentLength), s1, [])
    else if s1.length < contentLength.toNat then (.error .eof, [], [])
    else startupOnBuf (s1.take contentLength.toNat) (s1.drop contentLength.toNat)

/-- The outcome of the startup phase of Loop (proto.go lines 208-216):
Startup is invoked repeatedly until it reports ready or fails.  The Go
loop is unbounded; the fuel argument bounds the number of invocations
modelled, and any sufficiently large fuel yields the same result. -/
inductive HandshakeOut
  | ready (rest out : List Nat)
  | err (e : PGErr) (out : List Nat)
  | fuelOut
  deriving DecidableEq

/-- The startup loop of Loop (proto.go lines 208-216), accumulating the
bytes written to the client. -/
def handshake : Nat → List Nat → List Nat → HandshakeOut
  | 0, _, _ => .fuelOut
  | fuel + 1, s, acc =>
    match Startup s with
    | (.ready, rest, o) => .ready rest (acc ++ o)
    | (.notReady, rest, o) => handshake fuel rest (acc ++ o)
    | (.error e, _, o) => .err e (acc ++ o)

/-- The result of ReadQuery (proto.go lines 174-197): the Disconnect
sentinel on tag 'X', the query bytes and remaining stream on success,
or an error. -/
inductive RQResult
  | disconnect
  | query (q rest : List Nat)
  | err (e : PGErr)
  deriving DecidableEq

/-- ReadQuery (proto.go lines 174-197): read one tag byte; 'X' yields
Disconnect; any tag other than 'Q' is the unexpected-tag error; for 'Q'
read an int32 length and io.CopyN length-4 bytes.  Here the CopyN error
is discarded and the explicit n != contentLength check fires, producing
the counting underflow error; n is the count CopyN actually copied. -/
def readQuery (s : List Nat) : RQResult :=
  match s with
  | [] => .err .eof
  | t :: s1 =>
    if t = 88 then .disconnect
    else if t = 81 then
      match readI32 s1 with
      | none => .err .eof
      | some (msgLength, s2) =>
        let contentLength := int32wrap (msgLength - 4)
        let n : Int := max 0 (min contentLength (s2.length : Int))
        if n = contentLength then
          .query (s2.take contentLength.toNat) (s2.drop contentLength.toNat)
        else .err (.underflow n contentLength)
    else .err (.unexpectedTag t)

/-- The outcome of the query loop and of the whole session: clean
termination, a fatal error, or fuel exhaustion (the Go loops are
unbounded; sufficient fuel gives the Go behaviour), together with the
bytes written to the client. -/
inductive LoopOut
  | done (out : List Nat)
  | fail (e : PGErr) (out : List Nat)
  | fuelOut (out : List Nat)
  deriving DecidableEq

/-- Prefix the output stream of a loop outcome. -/
def prependOut (pre : List Nat) : LoopOut → LoopOut
  | .done o => .done (pre ++ o)
  | .fail e o => .fail e (pre ++ o)
  | .fuelOut o => .fuelOut (pre ++ o)

/-- The response emitted for one query (proto.go lines 240-265): the
row description for data, one data row per row of data, then
CommandComplete with the tag "what" (bytes 119,104,97,116).  The data
parameter stands for the slice of row maps the body builds (the query
is not actually run; proto.go line 239), each map presented in an
iteration order. -/
def respFor (data : List Row) : List Nat :=
  RowDescription data ++ (data.map DataRow).flatten ++
    CommandComplete [119, 104, 97, 116]

/-- The query loop of Loop (proto.go lines 223-266): write
ReadyForQuery, then ReadQuery; Disconnect breaks the loop cleanly, any
other error is returned, and a query is answered with respFor before
looping. -/
def queryLoop : Nat → List Nat → List Row → LoopOut
  | 0, _, _ => .fuelOut []
  | fuel + 1, s, data =>
    match readQuery s with
    | .disconnect => .done ReadyForQuery
    | .err e => .fail e ReadyForQuery
    | .query _q rest =>
        prependOut (ReadyForQuery ++ respFor data) (queryLoop fuel rest data)

/-- Loop (proto.go lines 207-268): run the startup loop until ready,
then write AuthenticationOk, then run the query loop. -/
def session (fuel : Nat) (s : List Nat) (data : List Row) : LoopOut :=
  match handshake fuel s [] with
  | .fuelOut => .fuelOut []
  | .err e out => .fail e out
  | .ready rest out => prependOut (out ++ AuthenticationOk) (queryLoop fuel rest data)

/-! ### Helper lemmas -/

theorem length_u32be (n : Nat) : (u32be n).length = 4 := rfl

theorem beNat_u32be (n : Nat) (h : n < 2 ^ 32) : beNat (u32be n) = n := by
  simp only [u32be, beNat, List.foldl]
  omega

theorem u32be_mod (n : Nat) : u32be (n % 2 ^ 32) = u32be n := by
  simp only [u32be, List.cons.injEq, and_true]
  refine ⟨by omega, by omega, by omega, ?_⟩
  omega

theorem i32be_natCast (n : Nat) : i32be (n : Int) = u32be n := by
  have h : ((n : Int) % 2 ^ 32).toNat = n % 2 ^ 32 := by omega
  rw [i32be, h, u32be_mod]

theorem int32wrap_eq (v : Int) (h1 : -2 ^ 31 ≤ v) (h2 : v < 2 ^ 31) :
    int32wrap v = v := by
  simp only [int32wrap]
  omega

theorem take_len_append {α : Type} (a b : List α) : (a ++ b).take a.length = a := by
  induction a with
  | nil => rfl
  | cons x xs ih => simp [ih]

theorem drop_len_append {α : Type} (a b : List α) : (a ++ b).drop a.length = b := by
  induction a with
  | nil => rfl
  | cons x xs ih => simp [ih]

theorem readI32_u32be (n : Nat) (r : List Nat) (h : n < 2 ^ 31) :
    readI32 (u32be n ++ r) = some ((n : Int), r) := by
  have hb : ((n / 2 ^ 24 % 256 * 256 + n / 2 ^ 16 % 256) * 256 + n / 2 ^ 8 % 256) * 256
      + n % 256 = n := by omega
  simp only [u32be, List.cons_append, List.nil_append, readI32, hb]
  rw [int32wrap_eq (n : Int) (by omega) (by omega)]

theorem readU32_u32be (n : Nat) (r : List Nat) (h : n < 2 ^ 32) :
    readU32 (u32be n ++ r) = some (n, r) := by
  have hb : ((n / 2 ^ 24 % 256 * 256 + n / 2 ^ 16 % 256) * 256 + n / 2 ^ 8 % 256) * 256
      + n % 256 = n := by omega
  simp only [u32be, List.cons_append, List.nil_append, readU32, hb]

theorem dropParam_length (l r : List Nat) (h : dropParam l = some r) :
    r.length < l.length := by
  induction l generalizing r with
  | nil => simp [dropParam] at h
  | cons b bs ih =>
    simp only [dropParam] at h
    split at h
    · injection h with h2
      subst h2
      exact Nat.lt_succ_self _
    · exact Nat.lt_trans (ih r h) (Nat.lt_succ_self _)

theorem consumeParams_true (buf : List Nat) : consumeParams buf = true := by
  have key : ∀ n (l : List Nat), l.length ≤ n → consumeParams l = true := by
    intro n
    induction n with
    | zero =>
      intro l hl
      have hnil : l = [] := by cases l <;> simp_all
      subst hnil
      rw [consumeParams]
      simp [dropParam]
    | succ n ih =>
      intro l hl
      rw [consumeParams]
      split
      · rfl
      · rename_i rest h
        exact ih rest (by have := dropParam_length l rest h; omega)
  exact key buf.length buf (Nat.le_refl _)

theorem flatten_byte_fields (l : List Nat) (h : ∀ b ∈ l, b < 256) :
    ((l.map Field.byte).map encodeField).flatten = l := by
  induction l with
  | nil => rfl
  | cons x xs ih =>
    simp only [List.map_cons, List.flatten_cons, encodeField]
    rw [ih fun b hb => h b (List.mem_cons_of_mem _ hb)]
    have hx : x % 256 = x := Nat.mod_eq_of_lt (h x (List.mem_cons_self _ _))
    simp [hx]

/-! ### Claim theorems -/

/-- Claim C1: the round-trip property fails on the code.  For the result
set [{a: 1}] (value of Go dynamic type int, as built by Loop), the single
data-row message is exactly tag 'D', length 10, field count 1, declared
value length 0, and no value bytes at all: binary.Write rejects the
platform-sized int and DataRow discards the error, so the scalar 1 is
absent from the wire bytes and no conformant parser can recover it. -/
theorem c1_dataRow_loses_int_value :
    DataRow [([97], GoValue.int 1)] = [68, 0, 0, 0, 10, 0, 1, 0, 0, 0, 0] := by
  decide

/-- Claim C2: the numeric encoding claim fails on the code at the row
{a: 1}.  The per-value buffer for the Go int 1 is empty and its declared
length part is int32 0, not 4; a fixed-size int32 1 would have encoded as
the 4 big-endian bytes 0,0,0,1, which shows the intended behaviour. -/
theorem c2_int_value_encoding :
    valueBytes (GoValue.int 1) = [] ∧
    valueFields (GoValue.int 1) = [Field.int32 0] ∧
    valueBytes (GoValue.int32 1) = [0, 0, 0, 1] := by
  decide

/-- Structure of every WriteMessage frame: the tag byte, then the
4 big-endian bytes of contents-length + 4, then the contents. -/
theorem writeMessage_bytes (tag : Nat) (fields : List Field) :
    WriteMessage tag fields =
      tag % 256 :: (u32be ((fields.map encodeField).flatten.length + 4) ++
        (fields.map encodeField).flatten) := by
  simp only [WriteMessage, List.cons.injEq, true_and]
  congr 1
  rw [show (((fields.map encodeField).flatten.length : Int) + 4)
      = (((fields.map encodeField).flatten.length + 4 : Nat) : Int) by push_cast; ring]
  exact i32be_natCast _

/-- Claim C3: a text value of byte length n is encoded in the data-row
message as its bytes followed by exactly one NUL byte, preceded by a
4-byte declared length whose big-endian value is n + 1. -/
theorem c3_text_value_encoding (name bs : List Nat) (hb : ∀ b ∈ bs, b < 256)
    (hlen : bs.length + 1 < 2 ^ 32) :
    DataRow [(name, GoValue.text bs)] =
      68 :: (u32be (bs.length + 11) ++
        ([0, 1] ++ (u32be (bs.length + 1) ++ (bs ++ [0])))) ∧
    beNat (u32be (bs.length + 1)) = bs.length + 1 := by
  refine ⟨?_, beNat_u32be _ hlen⟩
  have hb0 : ∀ b ∈ bs ++ [0], b < 256 := by
    intro b hbmem
    rcases List.mem_append.mp hbmem with h1 | h1
    · exact hb b h1
    · simp only [List.mem_singleton] at h1; omega
  have hflat : (((bs ++ [0]).map Field.byte).map encodeField).flatten = bs ++ [0] :=
    flatten_byte_fields _ hb0
  rw [DataRow, writeMessage_bytes]
  simp only [List.map_cons, List.map_nil, List.flatten_cons, List.flatten_nil,
    List.append_nil, valueFields, valueBytes, List.length_cons, List.length_nil,
    List.length_append, List.length_singleton, encodeField]
  rw [hflat]
  rw [show ((Nat.zero + 1 : Nat) : Int) = ((1 : Nat) : Int) by norm_num]
  rw [show i16be ((1 : Nat) : Int) = [0, 1] from by decide]
  rw [i32be_natCast]
  simp only [List.length_append, List.length_cons, List.length_nil, length_u32be,
    List.length_singleton]
  rw [show 0 + 1 + 1 + (4 + (bs.length + (0 + 1))) + 4 = bs.length + 11 from by omega]

/-- Claim C3 witness: the one-column row {c: "A"}. -/
theorem c3_text_value_encoding_witness :
    DataRow [([99], GoValue.text [65])] =
      68 :: (u32be 12 ++ ([0, 1] ++ (u32be 2 ++ ([65] ++ [0])))) ∧
    beNat (u32be 2) = 2 :=
  c3_text_value_encoding [99] [65] (by decide) (by norm_num)

theorem take4_append (a b : List Nat) (h : a.length = 4) : (a ++ b).take 4 = a := by
  rw [← h, take_len_append]

theorem drop4_append (a b : List Nat) (h : a.length = 4) : (a ++ b).drop 4 = b := by
  rw [← h, drop_len_append]

/-- Claim C4: a WriteMessage frame is the tag byte, a 4-byte big-endian
length, then the payload of the serialized parts in order, and the
declared length decodes to 4 plus the byte count of everything that
follows the length field. -/
theorem c4_writeMessage_framing (tag : Nat) (fields : List Field)
    (h : (fields.map encodeField).flatten.length + 4 < 2 ^ 32) :
    WriteMessage tag fields =
      tag % 256 :: (u32be ((fields.map encodeField).flatten.length + 4) ++
        (fields.map encodeField).flatten) ∧
    beNat (((WriteMessage tag fields).drop 1).take 4) =
      4 + ((WriteMessage tag fields).drop 5).length := by
  refine ⟨writeMessage_bytes tag fields, ?_⟩
  rw [writeMessage_bytes]
  show beNat ((u32be ((fields.map encodeField).flatten.length + 4) ++
      (fields.map encodeField).flatten).take 4) =
    4 + ((u32be ((fields.map encodeField).flatten.length + 4) ++
      (fields.map encodeField).flatten).drop 4).length
  rw [take4_append _ _ (length_u32be _), drop4_append _ _ (length_u32be _),
    beNat_u32be _ h]
  omega

/-- Claim C4 witness: the AuthenticationOk frame, tag 'R' with one
int32 part. -/
theorem c4_writeMessage_framing_witness :
    WriteMessage 82 [Field.int32 0] =
      82 % 256 :: (u32be (([Field.int32 0].map encodeField).flatten.length + 4) ++
        ([Field.int32 0].map encodeField).flatten) ∧
    beNat (((WriteMessage 82 [Field.int32 0]).drop 1).take 4) =
      4 + ((WriteMessage 82 [Field.int32 0]).drop 5).length :=
  c4_writeMessage_framing 82 [Field.int32 0] (by decide)

theorem takeN_append (a b : List Nat) (n : Nat) (h : a.length = n) :
    (a ++ b).take n = a := by
  rw [← h, take_len_append]

theorem dropN_append (a b : List Nat) (n : Nat) (h : a.length = n) :
    (a ++ b).drop n = b := by
  rw [← h, drop_len_append]

/-- Claim C5: a startup frame with the normal-startup magic 196608 makes
Startup report ready with no bytes written, leaving exactly the stream
after the declared payload (length - 4 bytes are consumed), whatever the
parameter region contains. -/
theorem c5_startup_normal (params rest : List Nat) (h : params.length + 8 < 2 ^ 31) :
    Startup (u32be (params.length + 8) ++ ((u32be 196608 ++ params) ++ rest)) =
      (SResult.ready, rest, []) := by
  have h1 := readI32_u32be (params.length + 8) ((u32be 196608 ++ params) ++ rest) (by omega)
  have h2 : int32wrap (((params.length + 8 : Nat) : Int) - 4)
      = ((params.length + 4 : Nat) : Int) := by
    unfold int32wrap; omega
  have hlen1 : (u32be 196608 ++ params).length = params.length + 4 := by
    rw [List.length_append, length_u32be]; omega
  simp only [Startup, h1, h2]
  rw [if_neg (by omega)]
  rw [Int.toNat_natCast]
  rw [if_neg (by rw [List.length_append, hlen1]; omega)]
  rw [takeN_append _ _ _ hlen1, dropN_append _ _ _ hlen1]
  simp only [startupOnBuf, readU32_u32be 196608 params (by norm_num), SSLRequest,
    StartupMessage]
  norm_num [consumeParams_true]

/-- Claim C5 witness: the minimal normal startup frame, length 8 and no
parameter bytes. -/
theorem c5_startup_normal_witness :
    Startup (u32be 8 ++ ((u32be 196608 ++ []) ++ [])) = (SResult.ready, [], []) :=
  c5_startup_normal [] [] (by norm_num)

/-- Framing part of Startup: a well-formed frame of declared length
params.length + 8 hands the buffered payload to startupOnBuf and leaves
exactly the stream after the payload. -/
theorem startup_frame_eval (m : Nat) (params rest : List Nat)
    (h : params.length + 8 < 2 ^ 31) :
    Startup (u32be (params.length + 8) ++ ((u32be m ++ params) ++ rest)) =
      startupOnBuf (u32be m ++ params) rest := by
  have h1 := readI32_u32be (params.length + 8) ((u32be m ++ params) ++ rest) (by omega)
  have h2 : int32wrap (((params.length + 8 : Nat) : Int) - 4)
      = ((params.length + 4 : Nat) : Int) := by
    unfold int32wrap; omega
  have hlen1 : (u32be m ++ params).length = params.length + 4 := by
    rw [List.length_append, length_u32be]; omega
  simp only [Startup, h1, h2]
  rw [if_neg (by omega), Int.toNat_natCast,
    if_neg (by rw [List.length_append, hlen1]; omega),
    takeN_append _ _ _ hlen1, dropN_append _ _ _ hlen1]

theorem startupOnBuf_ssl (params rest : List Nat) :
    startupOnBuf (u32be 80877103 ++ params) rest = (SResult.notReady, rest, [78]) := by
  simp only [startupOnBuf, readU32_u32be 80877103 params (by norm_num), SSLRequest]
  norm_num

theorem startupOnBuf_normal (params rest : List Nat) :
    startupOnBuf (u32be 196608 ++ params) rest = (SResult.ready, rest, []) := by
  simp only [startupOnBuf, readU32_u32be 196608 params (by norm_num), SSLRequest,
    StartupMessage]
  norm_num [consumeParams_true]

theorem startupOnBuf_unknown (m : Nat) (params rest : List Nat) (hm : m < 2 ^ 32)
    (h1 : m ≠ 196608) (h2 : m ≠ 80877103) :
    startupOnBuf (u32be m ++ params) rest =
      (SResult.error (PGErr.unknownProto m), rest, []) := by
  simp only [startupOnBuf, readU32_u32be m params hm, SSLRequest, StartupMessage]
  rw [if_neg h2, if_neg h1]

theorem handshake_ready (fuel : Nat) (s acc rest o : List Nat)
    (h : Startup s = (SResult.ready, rest, o)) :
    handshake (fuel + 1) s acc = HandshakeOut.ready rest (acc ++ o) := by
  simp only [handshake, h]

theorem handshake_notReady (fuel : Nat) (s acc rest o : List Nat)
    (h : Startup s = (SResult.notReady, rest, o)) :
    handshake (fuel + 1) s acc = handshake fuel rest (acc ++ o) := by
  simp only [handshake, h]

theorem handshake_err (fuel : Nat) (s acc rest o : List Nat) (e : PGErr)
    (h : Startup s = (SResult.error e, rest, o)) :
    handshake (fuel + 1) s acc = HandshakeOut.err e (acc ++ o) := by
  simp only [handshake, h]

/-- Claim C6: an SSL-request frame makes Startup write exactly the one
byte 'N' (78) and report not-ready without error, and the startup loop
invoked again on a following normal startup frame completes the
handshake, with 'N' the only byte written during the whole loop. -/
theorem c6_startup_ssl (params rest params2 rest2 : List Nat) (fuel : Nat)
    (h : params.length + 8 < 2 ^ 31) (h2 : params2.length + 8 < 2 ^ 31) :
    Startup (u32be (params.length + 8) ++ ((u32be 80877103 ++ params) ++ rest)) =
      (SResult.notReady, rest, [78]) ∧
    handshake (fuel + 2) (u32be (params.length + 8) ++ ((u32be 80877103 ++ params) ++
      (u32be (params2.length + 8) ++ ((u32be 196608 ++ params2) ++ rest2)))) [] =
      HandshakeOut.ready rest2 [78] := by
  refine ⟨?_, ?_⟩
  · rw [startup_frame_eval 80877103 params rest h, startupOnBuf_ssl]
  · have e1 : Startup (u32be (params.length + 8) ++ ((u32be 80877103 ++ params) ++
        (u32be (params2.length + 8) ++ ((u32be 196608 ++ params2) ++ rest2)))) =
        (SResult.notReady,
          u32be (params2.length + 8) ++ ((u32be 196608 ++ params2) ++ rest2), [78]) := by
      rw [startup_frame_eval 80877103 params _ h, startupOnBuf_ssl]
    have e2 : Startup (u32be (params2.length + 8) ++ ((u32be 196608 ++ params2) ++ rest2)) =
        (SResult.ready, rest2, []) := by
      rw [startup_frame_eval 196608 params2 rest2 h2, startupOnBuf_normal]
    show handshake (fuel + 1 + 1) _ [] = _
    rw [handshake_notReady _ _ _ _ _ e1, handshake_ready _ _ _ _ _ e2]
    simp

/-- Claim C6 witness: a bare SSL-request frame followed by a bare normal
startup frame. -/
theorem c6_startup_ssl_witness :
    Startup (u32be 8 ++ ((u32be 80877103 ++ []) ++ [])) =
      (SResult.notReady, [], [78]) ∧
    handshake 2 (u32be 8 ++ ((u32be 80877103 ++ []) ++
      (u32be 8 ++ ((u32be 196608 ++ []) ++ [])))) [] =
      HandshakeOut.ready [] [78] :=
  c6_startup_ssl [] [] [] [] 0 (by norm_num) (by norm_num)

/-- A session whose first Startup fails aborts with that error and
writes nothing. -/
theorem session_err (e : PGErr) (fuel : Nat) (s : List Nat) (data : List Row)
    (rest : List Nat) (h1 : Startup s = (SResult.error e, rest, [])) :
    session (fuel + 1) s data = LoopOut.fail e [] := by
  have e2 := handshake_err fuel s ([] : List Nat) rest [] e h1
  unfold session
  rw [e2]
  rfl

/-- Claim C7: a startup frame whose magic is neither 196608 nor 80877103
makes Startup fail with the unknown-protocol-version error, and the
whole session aborts with that error having written nothing at all to
the client; in particular no authentication-ok is ever emitted and
ready is never reported. -/
theorem c7_unknown_magic (v : Nat) (params rest : List Nat) (data : List Row)
    (fuel : Nat) (hv : v < 2 ^ 32) (hv1 : v ≠ 196608) (hv2 : v ≠ 80877103)
    (h : params.length + 8 < 2 ^ 31) :
    Startup (u32be (params.length + 8) ++ ((u32be v ++ params) ++ rest)) =
      (SResult.error (PGErr.unknownProto v), rest, []) ∧
    session (fuel + 1) (u32be (params.length + 8) ++ ((u32be v ++ params) ++ rest)) data =
      LoopOut.fail (PGErr.unknownProto v) [] := by
  have e1 : Startup (u32be (params.length + 8) ++ ((u32be v ++ params) ++ rest)) =
      (SResult.error (PGErr.unknownProto v), rest, []) := by
    rw [startup_frame_eval v params rest h, startupOnBuf_unknown v params rest hv hv1 hv2]
  exact ⟨e1, session_err (PGErr.unknownProto v) fuel _ data rest e1⟩

/-- Claim C7 witness: magic 0 with no parameters. -/
theorem c7_unknown_magic_witness :
    Startup (u32be 8 ++ ((u32be 0 ++ []) ++ [])) =
      (SResult.error (PGErr.unknownProto 0), [], []) ∧
    session 1 (u32be 8 ++ ((u32be 0 ++ []) ++ [])) [] =
      LoopOut.fail (PGErr.unknownProto 0) [] :=
  c7_unknown_magic 0 [] [] [] 0 (by norm_num) (by norm_num) (by norm_num) (by norm_num)

theorem readQuery_terminate (s : List Nat) : readQuery (88 :: s) = RQResult.disconnect := by
  simp [readQuery]

theorem readQuery_other (t : Nat) (s : List Nat) (h1 : t ≠ 88) (h2 : t ≠ 81) :
    readQuery (t :: s) = RQResult.err (PGErr.unexpectedTag t) := by
  simp only [readQuery]
  rw [if_neg h1, if_neg h2]

theorem readQuery_query (q rest : List Nat) (hq : q.length + 4 < 2 ^ 31) :
    readQuery (81 :: (u32be (q.length + 4) ++ (q ++ rest))) = RQResult.query q rest := by
  have h1 := readI32_u32be (q.length + 4) (q ++ rest) (by omega)
  have h2 : int32wrap (((q.length + 4 : Nat) : Int) - 4) = ((q.length : Nat) : Int) := by
    unfold int32wrap; omega
  have h3 : max 0 (min ((q.length : Nat) : Int) (((q ++ rest).length : Nat) : Int))
      = ((q.length : Nat) : Int) := by
    rw [List.length_append]
    omega
  simp only [readQuery, h1, h2, h3]
  simp [Int.toNat_natCast, takeN_append q rest q.length rfl, dropN_append q rest q.length rfl]

theorem queryLoop_disconnect (fuel : Nat) (s : List Nat) (data : List Row)
    (h : readQuery s = RQResult.disconnect) :
    queryLoop (fuel + 1) s data = LoopOut.done ReadyForQuery := by
  simp only [queryLoop, h]

theorem queryLoop_err (fuel : Nat) (s : List Nat) (data : List Row) (e : PGErr)
    (h : readQuery s = RQResult.err e) :
    queryLoop (fuel + 1) s data = LoopOut.fail e ReadyForQuery := by
  simp only [queryLoop, h]

/-- Claim C8: after the ready-for-query write, tag 'X' (88) ends the
query loop cleanly with no output beyond the ready-for-query message
itself; tag 'Q' (81) proceeds to reading the declared-length query
payload; any other tag fails the connection with the unexpected-tag
error. -/
theorem c8_query_loop_tags (s rest q : List Nat) (data : List Row) (fuel : Nat)
    (t : Nat) (hq : q.length + 4 < 2 ^ 31) (ht1 : t ≠ 88) (ht2 : t ≠ 81) :
    queryLoop (fuel + 1) (88 :: s) data = LoopOut.done ReadyForQuery ∧
    readQuery (81 :: (u32be (q.length + 4) ++ (q ++ rest))) = RQResult.query q rest ∧
    queryLoop (fuel + 1) (t :: s) data =
      LoopOut.fail (PGErr.unexpectedTag t) ReadyForQuery :=
  ⟨queryLoop_disconnect fuel _ data (readQuery_terminate s),
   readQuery_query q rest hq,
   queryLoop_err fuel _ data _ (readQuery_other t s ht1 ht2)⟩

/-- Claim C8 witness: terminate on [88], a 'Q' frame with an empty query
payload, and the unknown tag 0. -/
theorem c8_query_loop_tags_witness :
    queryLoop 1 (88 :: []) [] = LoopOut.done ReadyForQuery ∧
    readQuery (81 :: (u32be 4 ++ ([] ++ []))) = RQResult.query [] [] ∧
    queryLoop 1 (0 :: []) [] = LoopOut.fail (PGErr.unexpectedTag 0) ReadyForQuery :=
  c8_query_loop_tags [] [] [] [] 0 0 (by norm_num) (by norm_num) (by norm_num)

/-- Claim C9: a startup frame that declares length 20 while only 10
payload bytes arrive before stream closure makes Startup fail and never
report ready, but the error is the bare end-of-stream error io.CopyN
returns, not the counting buffer-underflow error the spec describes:
proto.go line 139 returns the CopyN error as-is, and the formatted
underflow error at line 143 is unreachable on a short read because CopyN
never reports a short copy with a nil error. -/
theorem c9_startup_short_read :
    Startup (u32be 20 ++ [1, 2, 3, 4, 5, 6, 7, 8, 9, 10]) =
      (SResult.error PGErr.eof, [], []) ∧
    PGErr.eof ≠ PGErr.underflow 10 16 := by
  decide

/-- Claim C10: the server output is not a function of the result map
alone.  The same one-row result map {a: "1", b: "2"} presented in its
two iteration orders (Go randomizes map iteration order on every range
loop, and RowDescription and DataRow each iterate independently) yields
two different data-row byte sequences, so two runs over identical input
and identical result data may produce different output streams. -/
theorem c10_dataRow_order_dependent :
    ([([97], GoValue.text [49]), ([98], GoValue.text [50])] : Row).Perm
      [([98], GoValue.text [50]), ([97], GoValue.text [49])] ∧
    DataRow [([97], GoValue.text [49]), ([98], GoValue.text [50])] ≠
      DataRow [([98], GoValue.text [50]), ([97], GoValue.text [49])] := by
  decide

end PG
